import Mathlib

/-!
Shallow embedding of the local Git state-mutation workflow of
`git_operations.py` (repository GITHUB_AUTOMATION).

The repository state GitPython mutates is modeled explicitly: branches
with their commit history, the checked-out branch, the configured
remotes, the working-tree dirty flag and the merge-in-progress flag.
External effects (what the `git` binary, the filesystem and the HTTP
template source do) enter the definitions as explicit parameters, so
every operation is a pure function from a state and an environment to a
state and an `Except`-style outcome (`.error` models a raised Python
exception, the state component is the repository as the exception
leaves it).

A note on `ensure_main_branch`: `git_operations.py` defines this
function twice (lines 66-101 and lines 214-230).  In Python the second
`def` statement rebinds the module-level name, so the definition at
line 214 is the one every caller gets; the definition at line 66 is
dead code.  Both are embedded below: `ensure_main_branch` is the
effective one (line 214), `ensure_main_branch_shadowed` the dead one
(line 66).
-/

set_option autoImplicit false
set_option linter.unusedVariables false

namespace GitAutomation

/-- A local branch: its name and its commit history (commit ids, newest
first).  `git_operations.py` reaches branches through `repo.heads`. -/
structure Branch where
  name : String
  history : List Nat
deriving Repr, DecidableEq

/-- The repository state the module mutates: `repo.heads`,
`repo.active_branch`, `repo.remotes` (name, url), the working-tree
dirty flag `repo.is_dirty(untracked_files=True)` and whether a merge is
in progress (a `MERGE_HEAD` exists). -/
structure RepoState where
  branches : List Branch
  headBranch : String
  remotes : List (String × String)
  dirty : Bool
  mergeInProgress : Bool
deriving Repr, DecidableEq

/-- The names in `[head.name for head in repo.heads]`. -/
def RepoState.branchNames (r : RepoState) : List String :=
  r.branches.map (fun b => b.name)

/-- `name in [head.name for head in repo.heads]`. -/
def hasBranch (r : RepoState) (b : String) : Bool :=
  r.branchNames.contains b

/-- `name in [remote.name for remote in repo.remotes]`. -/
def hasRemote (r : RepoState) (n : String) : Bool :=
  (r.remotes.map (fun p => p.1)).contains n

/-- `repo.git.checkout(b)` for an existing branch `b`: only the
checked-out branch changes. -/
def checkout (r : RepoState) (b : String) : RepoState :=
  { r with headBranch := b }

/-- The history of branch `b` (empty when `b` does not exist). -/
def branchHistory (r : RepoState) (b : String) : List Nat :=
  match r.branches.find? (fun br => br.name == b) with
  | some br => br.history
  | none => []

/-- Replace branch `b`'s history (what a merge commit on `b` does). -/
def setBranchHistory (r : RepoState) (b : String) (h : List Nat) : RepoState :=
  { r with branches :=
      r.branches.map (fun br => if br.name == b then { br with history := h } else br) }

/-- `git checkout -b name`: create a branch at the current HEAD and
switch to it (on an unborn HEAD, git merely renames the unborn branch). -/
def checkoutNewBranch (r : RepoState) (name : String) : RepoState :=
  if r.branches.isEmpty then { r with headBranch := name }
  else { r with
    branches := r.branches ++ [⟨name, branchHistory r r.headBranch⟩],
    headBranch := name }

/-- Total number of commits across the branch histories; used to state
that an operation creates no commit. -/
def totalCommits (r : RepoState) : Nat :=
  (r.branches.map (fun b => b.history.length)).sum

/-- `merge_branch` (git_operations.py lines 261-305).  `mergeOutcome`
models what the external `git merge <source_branch>` command does from
the state in which `target_branch` is checked out: `some h` means the
merge command succeeds and the target branch's history becomes `h`;
`none` means the command exits nonzero (`GitCommandError`, e.g. a
conflict), leaving a merge in progress with a conflicted working tree,
after which the code runs `git merge --abort`, which restores the state
the merge attempt started from.  The result carries the final
repository state and either the returned boolean or the raised error
message. -/
def merge_branch (repo : RepoState) (source_branch target_branch : String)
    (mergeOutcome : Option (List Nat)) : RepoState × Except String Bool :=
  if !hasBranch repo source_branch then
    (repo, .error ("Source branch '" ++ source_branch ++ "' does not exist!"))
  else if !hasBranch repo target_branch then
    (repo, .error ("Target branch '" ++ target_branch ++ "' does not exist!"))
  else
    let current_branch := repo.headBranch
    let repo1 := checkout repo target_branch
    match mergeOutcome with
    | some h =>
      let repo2 := setBranchHistory repo1 target_branch h
      let repo3 := if current_branch != target_branch then checkout repo2 current_branch else repo2
      (repo3, .ok true)
    | none =>
      let conflicted := { repo1 with mergeInProgress := true, dirty := true }
      let aborted := { conflicted with mergeInProgress := repo1.mergeInProgress, dirty := repo1.dirty }
      let repo3 := if current_branch != target_branch then checkout aborted current_branch else aborted
      (repo3, .ok false)

/-- `add_and_commit` (git_operations.py lines 126-143).  When the tree
is dirty it stages everything and commits; `newId` is the id of the
commit the index then creates on the checked-out branch.  On a clean
tree it returns `False` without touching the repository. -/
def add_and_commit (repo : RepoState) (commit_message : String) (newId : Nat) :
    RepoState × Bool :=
  if repo.dirty then
    let repo1 := setBranchHistory repo repo.headBranch (newId :: branchHistory repo repo.headBranch)
    ({ repo1 with dirty := false }, true)
  else
    (repo, false)

/-- The effective `ensure_main_branch` (git_operations.py lines
214-230; it shadows the earlier definition at line 66).
`origin_main_in_refs` models `"origin/main" in repo.remote().refs`;
`pushResult` models the external `git push --set-upstream origin main`
command (`none` = success, `some e` = `GitCommandError` with message
`e`).  Unlike the shadowed definition, the push here is not wrapped in
its own `try/except`, so its failure reaches the outer handler, which
logs and re-raises it. -/
def ensure_main_branch (repo : RepoState) (origin_main_in_refs : Bool)
    (pushResult : Option String) : RepoState × Except String Bool :=
  let repo1 := if hasBranch repo "main" then repo else checkoutNewBranch repo "main"
  if hasRemote repo1 "origin" && origin_main_in_refs then
    match pushResult with
    | none => (repo1, .ok true)
    | some e => (repo1, .error e)
  else
    (repo1, .ok true)

/-- `git commit --allow-empty -m "Initial commit"`: creates a commit on
the current (possibly unborn) branch. -/
def commitAllowEmpty (r : RepoState) (newId : Nat) : RepoState :=
  if r.branches.isEmpty then { r with branches := [⟨r.headBranch, [newId]⟩] }
  else setBranchHistory r r.headBranch (newId :: branchHistory r r.headBranch)

/-- The shadowed first definition of `ensure_main_branch`
(git_operations.py lines 66-101), dead code in Python because line 214
rebinds the name.  It renames `master` to `main` in place
(`git branch -m master main`) and wraps the upstream push in
`try/except`, so a push failure is only logged. -/
def ensure_main_branch_shadowed (repo : RepoState) (newId : Nat)
    (pushResult : Option String) : RepoState × Except String Bool :=
  let repo1 :=
    if hasBranch repo "main" then repo
    else if hasBranch repo "master" then
      { repo with
        branches := repo.branches.map
          (fun b => if b.name == "master" then { b with name := "main" } else b),
        headBranch := if repo.headBranch == "master" then "main" else repo.headBranch }
    else
      let repo0 := if repo.branches.isEmpty then commitAllowEmpty repo newId else repo
      checkoutNewBranch repo0 "main"
  -- the push failure (pushResult = some e) is caught and logged; either way True
  let _ := pushResult
  (repo1, .ok true)

/-- `os.path.basename` for the paths this module passes it. -/
def basename (path : String) : String :=
  (path.splitOn "/").getLastD path

/-- The derived remote URL of `init_local_repo`:
`https://github.com/<username>/<repo-basename>.git`. -/
def derived_origin_url (github_username repo_path : String) : String :=
  "https://github.com/" ++ github_username ++ "/" ++ basename repo_path ++ ".git"

/-- `init_local_repo` (git_operations.py lines 19-64).
`github_username` is `os.getenv("GITHUB_USERNAME")`.  `existing` is the
repository already at the path (`git.Repo.init` on an existing
repository is a no-op that keeps all history and remotes); `none` means
the path held no repository, and the freshly initialized one is empty.
With no username configured the function warns and returns the
repository untouched; otherwise it deletes any existing `origin` remote
and creates `origin` at the derived URL. -/
def init_local_repo (github_username : Option String) (repo_path : String)
    (existing : Option RepoState) : RepoState :=
  let repo := existing.getD ⟨[], "master", [], false, false⟩
  match github_username with
  | none => repo
  | some u =>
    let origin_url := derived_origin_url u repo_path
    let repo1 := { repo with remotes := repo.remotes.filter (fun r => r.1 != "origin") }
    { repo1 with remotes := repo1.remotes ++ [("origin", origin_url)] }

/-- The `"python"` entry of `GITIGNORE_TEMPLATES` (git_operations.py
lines 359-377). -/
def pythonTemplate : String :=
  "\n# Byte-compiled / optimized / DLL files\n__pycache__/\n*.py[cod]\n*$py.class\n\n# Virtual environment\nvenv/\nenv/\n*.egg-info/\n.Python\npip-log.txt\npip-delete-this-directory.txt\n\n# IDE settings\n.vscode/\n.idea/\n*.swp\n"

/-- The `"node"` entry of `GITIGNORE_TEMPLATES` (lines 378-383). -/
def nodeTemplate : String :=
  "\n# Node.js dependencies\nnode_modules/\nnpm-debug.log\nyarn-error.log\n"

/-- The `"rust"` entry of `GITIGNORE_TEMPLATES` (lines 384-389). -/
def rustTemplate : String :=
  "\n# Rust specific\n/target/\n**/*.rs.bk\nCargo.lock\n"

/-- The `"general"` entry of `GITIGNORE_TEMPLATES` (lines 390-401). -/
def generalTemplate : String :=
  "\n# Logs\nlogs\n*.log\nnpm-debug.log*\nyarn-debug.log*\nyarn-error.log*\n\n# OS files\n.DS_Store\nThumbs.db\n"

/-- The `GITIGNORE_TEMPLATES` dict (git_operations.py lines 358-402). -/
def GITIGNORE_TEMPLATES : List (String × String) :=
  [("python", pythonTemplate), ("node", nodeTemplate),
   ("rust", rustTemplate), ("general", generalTemplate)]

/-- `GITIGNORE_TEMPLATES.get(ptype, GITIGNORE_TEMPLATES["general"])`. -/
def templateFor (ptype : String) : String :=
  match GITIGNORE_TEMPLATES.find? (fun kv => kv.1 == ptype) with
  | some kv => kv.2
  | none => generalTemplate

/-- The filesystem view `detect_project_type` consults: whether
`os.path.exists(repo_path)` holds, and what `os.listdir(repo_path)`
returns (`.error` models a raised `OSError` such as a permission
error). -/
structure DirListing where
  pathExists : Bool
  listdir : Except String (List String)

/-- Python's `f.endswith(suffix)`, modeled on the character lists of
the two strings. -/
def endswith (f suffix : String) : Bool :=
  suffix.data.isSuffixOf f.data

/-- The type-accumulation block of `detect_project_type` (lines
419-432): the three detection rules, each evaluated independently. -/
def projectTypesOf (files : List String) : List String :=
  (if files.any (fun f => endswith f ".py") || files.contains "requirements.txt"
   then ["python"] else []) ++
  (if files.any (fun f => endswith f ".js") || files.contains "package.json"
   then ["node"] else []) ++
  (if files.any (fun f => endswith f ".rs") || files.contains "Cargo.toml"
   then ["rust"] else [])

/-- `detect_project_type` (git_operations.py lines 404-443).  The
Python code accumulates matches in a `set` and returns `list(set)`; the
embedding fixes the order python, node, rust, which is one of the
possible set enumerations — the claims about this function only concern
the result as a set.  Any exception inside the body (e.g. from
`os.listdir`) is caught by the outer handler, which returns
`["general"]`. -/
def detect_project_type (d : DirListing) : List String :=
  if !d.pathExists then ["general"]
  else
    match d.listdir with
    | .error _ => ["general"]
    | .ok files =>
      let project_types := projectTypesOf files
      if project_types.isEmpty then ["general"] else project_types

/-- `generate_gitignore` (git_operations.py lines 445-479), modeled as
the content the function writes to `.gitignore`:
`"\n".join(templates for the detected types).strip()`.  The optional
follow-up commit of the file is wrapped in `try/except` with the
failure swallowed, so it does not affect the written content or the
success of the call. -/
def generate_gitignore (d : DirListing) : String :=
  let project_types := detect_project_type d
  (String.intercalate "\n" (project_types.map templateFor)).trim

/-- What one HTTP GET of the template source yields: a response with a
status code and body, or a raised transport error. -/
inductive HttpResult where
  | response (status : Nat) (body : String)
  | transportError (msg : String)
deriving Repr, DecidableEq

/-- `response.status_code == 200`. -/
def isSuccess200 : HttpResult → Bool
  | .response status _ => status == 200
  | .transportError _ => false

/-- The URL `download_github_gitignore` fetches. -/
def gitignore_url (project_type : String) : String :=
  "https://raw.githubusercontent.com/github/gitignore/main/" ++ project_type ++ ".gitignore"

/-- `download_github_gitignore` (git_operations.py lines 481-524),
modeled as the content that ends up written to `.gitignore`.  `http` is
the template source.  With `project_type = none` the code auto-detects
and takes `detected_types[0].capitalize()`; were the detection result
empty, the `IndexError` would be caught by the outer handler, which —
like a transport error — falls back to `generate_gitignore`.  A non-200
status takes the explicit fallback branch to `generate_gitignore`. -/
def download_github_gitignore (d : DirListing) (project_type : Option String)
    (http : String → HttpResult) : String :=
  let ptype? :=
    match project_type with
    | some t => some t
    | none => ((detect_project_type d).head?).map String.capitalize
  match ptype? with
  | none => generate_gitignore d
  | some ptype =>
    match http (gitignore_url ptype) with
    | .response status body =>
      if status == 200 then body else generate_gitignore d
    | .transportError _ => generate_gitignore d

/-- One entry of the `files` argument of `add_multiple_files`: a dict
with `path` and `content` keys. -/
structure FileEntry where
  path : String
  content : String
deriving Repr, DecidableEq

/-- The dict `add_multiple_files` returns. -/
structure BatchResult where
  success : Bool
  message : String
  created_files : List String
  errors : List String
deriving Repr, DecidableEq

/-- The per-entry error message
`f"Failed to create file '{file_path}': {e}"`. -/
def writeErrMsg (p e : String) : String :=
  "Failed to create file '" ++ p ++ "': " ++ e

/-- The `for file_info in files` loop of `add_multiple_files`:
`writeRes` models the filesystem (`none` = the `makedirs`+`open`+write
of that entry succeeded, `some e` = it raised with message `e`).  Each
entry's body is wrapped in its own `try/except`, so a failure appends
to `errors` and the loop continues; results keep loop order. -/
def addFilesLoop (writeRes : FileEntry → Option String) :
    List FileEntry → List String × List String
  | [] => ([], [])
  | fi :: rest =>
    let tail := addFilesLoop writeRes rest
    match writeRes fi with
    | none => (fi.path :: tail.1, tail.2)
    | some e => (tail.1, writeErrMsg fi.path e :: tail.2)

/-- `add_multiple_files` (git_operations.py lines 590-633). -/
def add_multiple_files (writeRes : FileEntry → Option String)
    (files : List FileEntry) : BatchResult :=
  let r := addFilesLoop writeRes files
  { success := r.2.isEmpty
    message := "Created " ++ toString r.1.length ++ " files, " ++ toString r.2.length ++ " errors"
    created_files := r.1
    errors := r.2 }

/-! Concrete states used by the witnesses and the concrete evaluations. -/

/-- A repository with `main` and a diverged `feature` branch,
`feature` checked out. -/
def demoRepo : RepoState :=
  { branches := [⟨"main", [0]⟩, ⟨"feature", [1, 0]⟩]
    headBranch := "feature"
    remotes := []
    dirty := false
    mergeInProgress := false }

/-- A repository whose only branch is `master`. -/
def masterOnlyRepo : RepoState :=
  { branches := [⟨"master", [0]⟩]
    headBranch := "master"
    remotes := []
    dirty := false
    mergeInProgress := false }

/-- A repository on `main` with an `origin` remote configured. -/
def originRepo : RepoState :=
  { branches := [⟨"main", [0]⟩]
    headBranch := "main"
    remotes := [("origin", "https://github.com/alice/proj.git")]
    dirty := false
    mergeInProgress := false }

/-- A template source that is unreachable: every GET raises. -/
def unreachableHttp : String → HttpResult :=
  fun _ => .transportError "connection refused"

/-- A directory whose top-level listing holds only `package.json`. -/
def nodeDir : DirListing := ⟨true, .ok ["package.json"]⟩

/-! Theorems. -/

/-- Any `detect_project_type` result is non-empty: the body defaults to
`["general"]` when nothing matched, and the outer handler returns
`["general"]` on a missing path or a listing error. -/
theorem detect_project_type_ne_nil (d : DirListing) : detect_project_type d ≠ [] := by
  obtain ⟨pe, l⟩ := d
  cases pe
  · simp [detect_project_type]
  · cases l with
    | error m => simp [detect_project_type]
    | ok files =>
      show (if (projectTypesOf files).isEmpty = true then ["general"]
            else projectTypesOf files) ≠ []
      split
      · simp
      · next h =>
        intro hc
        rw [hc] at h
        simp at h

/-- The dead first definition of `ensure_main_branch` (lines 66-101)
does rename `master` to `main` in place, as the spec describes. -/
theorem ensure_main_branch_shadowed_renames_master :
    (ensure_main_branch_shadowed masterOnlyRepo 5 none).1.branches = [⟨"main", [0]⟩] ∧
    hasBranch (ensure_main_branch_shadowed masterOnlyRepo 5 none).1 "master" = false := by
  decide

/-- C1: when both branches exist and the merge command fails
(`mergeOutcome = none`, e.g. a conflict), `merge_branch` aborts the
in-progress merge, so the final repository state — the target branch's
history, the checked-out branch, the working tree — equals the
pre-merge state, and the call returns `false` instead of raising. -/
theorem merge_branch_conflict_aborts (repo : RepoState) (source_branch target_branch : String)
    (hs : hasBranch repo source_branch = true) (ht : hasBranch repo target_branch = true) :
    merge_branch repo source_branch target_branch none = (repo, Except.ok false) := by
  obtain ⟨bs, hb, rs, di, mi⟩ := repo
  simp only [merge_branch, hs, ht, Bool.not_true, Bool.false_eq_true, if_false, checkout]
  by_cases h : hb = target_branch
  · subst h; simp
  · simp [bne_iff_ne, h]

/-- Witness for C1: a concrete conflicting merge of `feature` into
`main`, starting from `feature`, ends exactly where it started and
reports `false`. -/
theorem merge_branch_conflict_aborts_witness :
    merge_branch demoRepo "feature" "main" none = (demoRepo, Except.ok false) :=
  merge_branch_conflict_aborts demoRepo "feature" "main" (by decide) (by decide)

/-- C4: when a branch is missing, `merge_branch` raises a `ValueError`
naming the missing branch (the source branch is checked first) and the
repository state is returned untouched: no checkout and no merge
attempt happen before the failure. -/
theorem merge_branch_missing_branch (repo : RepoState) (source_branch target_branch : String)
    (mergeOutcome : Option (List Nat)) :
    (hasBranch repo source_branch = false →
      merge_branch repo source_branch target_branch mergeOutcome =
        (repo, Except.error ("Source branch '" ++ source_branch ++ "' does not exist!"))) ∧
    (hasBranch repo source_branch = true → hasBranch repo target_branch = false →
      merge_branch repo source_branch target_branch mergeOutcome =
        (repo, Except.error ("Target branch '" ++ target_branch ++ "' does not exist!"))) := by
  constructor
  · intro hs; simp [merge_branch, hs]
  · intro hs ht; simp [merge_branch, hs, ht]

/-- Witness for C4: merging the nonexistent branch `nope` into `main`
fails with the error naming `nope` and leaves the state untouched. -/
theorem merge_branch_missing_branch_witness :
    merge_branch demoRepo "nope" "main" none =
      (demoRepo, Except.error ("Source branch '" ++ "nope" ++ "' does not exist!")) :=
  (merge_branch_missing_branch demoRepo "nope" "main" none).1 (by decide)

/-- C5: `add_and_commit` on a clean working tree returns `False` (the
"nothing to commit" outcome, not an exception) and leaves the
repository — in particular its commit count — unchanged. -/
theorem add_and_commit_clean_noop (repo : RepoState) (commit_message : String) (newId : Nat)
    (h : repo.dirty = false) :
    add_and_commit repo commit_message newId = (repo, false) ∧
    totalCommits (add_and_commit repo commit_message newId).1 = totalCommits repo := by
  refine ⟨?_, ?_⟩ <;> simp [add_and_commit, h]

/-- Witness for C5: a concrete clean repository. -/
theorem add_and_commit_clean_noop_witness :
    add_and_commit demoRepo "update" 7 = (demoRepo, false) ∧
    totalCommits (add_and_commit demoRepo "update" 7).1 = totalCommits demoRepo :=
  add_and_commit_clean_noop demoRepo "update" 7 (by decide)

/-- C2 (divergence): on a repository whose only branch is `master`, the
effective `ensure_main_branch` (the line-214 definition that shadows
the line-66 one) runs `git checkout -b main`, which creates a second
branch `main` alongside `master` instead of renaming `master`:
afterwards both `master` and `main` exist. -/
theorem ensure_main_branch_keeps_master :
    hasBranch (ensure_main_branch masterOnlyRepo false none).1 "master" = true ∧
    hasBranch (ensure_main_branch masterOnlyRepo false none).1 "main" = true ∧
    (ensure_main_branch masterOnlyRepo false none).1.branches =
      [⟨"master", [0]⟩, ⟨"main", [0]⟩] := by
  decide

/-- C3 (divergence): in the effective `ensure_main_branch` the
`git push --set-upstream origin main` call is not wrapped in its own
`try/except`; when the repository has an `origin` remote (with
`origin/main` among its refs) and the push fails, the
`GitCommandError` reaches the outer handler, which re-raises it, so the
call raises instead of returning success. -/
theorem ensure_main_branch_push_failure_raises (e : String) :
    (ensure_main_branch originRepo true (some e)).2 = Except.error e := rfl

/-- C6: re-running `init_local_repo` on an already-initialized
repository, with `GITHUB_USERNAME` configured, keeps every branch and
commit (so nothing done between the two calls is lost) and leaves
exactly one `origin` remote, pointing at the derived URL
`https://github.com/<username>/<repo-basename>.git`. -/
theorem init_local_repo_idempotent (u repo_path : String) (mid : RepoState) :
    (init_local_repo (some u) repo_path (some mid)).branches = mid.branches ∧
    (init_local_repo (some u) repo_path (some mid)).headBranch = mid.headBranch ∧
    (init_local_repo (some u) repo_path (some mid)).remotes.filter
        (fun r => r.1 == "origin") = [("origin", derived_origin_url u repo_path)] ∧
    (init_local_repo (some u) repo_path (some mid)).remotes.countP
        (fun r => r.1 == "origin") = 1 := by
  refine ⟨rfl, rfl, ?_, ?_⟩ <;>
    simp [init_local_repo, List.filter_filter, List.countP_filter, List.countP_eq_length_filter]

/-- C7: whenever the HTTP fetch of the remote template does not return
status 200 — a non-200 response or a raised transport error —
`download_github_gitignore` writes exactly the content
`generate_gitignore` synthesizes locally for the same path, and the
call succeeds (it returns that content rather than propagating the
failure). -/
theorem download_github_gitignore_fallback (d : DirListing) (project_type : Option String)
    (http : String → HttpResult) (h : ∀ url, isSuccess200 (http url) = false) :
    download_github_gitignore d project_type http = generate_gitignore d := by
  have step : ∀ ptype : String,
      (match http (gitignore_url ptype) with
        | .response status body =>
          if status == 200 then body else generate_gitignore d
        | .transportError _ => generate_gitignore d) = generate_gitignore d := by
    intro ptype
    cases hr : http (gitignore_url ptype) with
    | response status body =>
      have h200 := h (gitignore_url ptype)
      rw [hr] at h200
      simp only [isSuccess200] at h200
      simp [h200]
    | transportError m => rfl
  cases project_type with
  | some t => simpa [download_github_gitignore] using step t
  | none =>
    cases hd : (detect_project_type d).head? with
    | none => simp [download_github_gitignore, hd]
    | some t => simpa [download_github_gitignore, hd] using step t.capitalize

/-- Witness for C7: an unreachable template source on a `package.json`
directory falls back to the locally synthesized content. -/
theorem download_github_gitignore_fallback_witness :
    download_github_gitignore nodeDir none unreachableHttp = generate_gitignore nodeDir :=
  download_github_gitignore_fallback nodeDir none unreachableHttp (fun _ => rfl)

/-- C8: `detect_project_type` on a listing holding only `package.json`
returns exactly `["node"]`; on an empty listing it returns exactly
`["general"]`; on a path that does not exist it returns `["general"]`
without raising, whatever the listing would have been. -/
theorem detect_project_type_examples :
    detect_project_type ⟨true, .ok ["package.json"]⟩ = ["node"] ∧
    detect_project_type ⟨true, .ok []⟩ = ["general"] ∧
    ∀ l : Except String (List String), detect_project_type ⟨false, l⟩ = ["general"] :=
  ⟨by decide, by decide, fun _ => rfl⟩

/-- The loop of `add_multiple_files`: the created list is exactly the
paths of the entries whose write succeeded (in order), and there is one
error per failed entry. -/
theorem addFilesLoop_spec (writeRes : FileEntry → Option String) (files : List FileEntry) :
    (addFilesLoop writeRes files).1 =
      (files.filter (fun f => (writeRes f).isNone)).map (fun f => f.path) ∧
    (addFilesLoop writeRes files).2.length =
      (files.filter (fun f => (writeRes f).isSome)).length := by
  induction files with
  | nil => exact ⟨rfl, rfl⟩
  | cons fi rest ih =>
    cases hw : writeRes fi <;>
      simp [addFilesLoop, hw, List.filter_cons, ih.1, ih.2]

/-- The loop of `add_multiple_files` collects no error exactly when
every entry's write succeeded. -/
theorem addFilesLoop_errors_nil (writeRes : FileEntry → Option String)
    (files : List FileEntry) :
    (addFilesLoop writeRes files).2 = [] ↔ ∀ f ∈ files, writeRes f = none := by
  induction files with
  | nil => simp [addFilesLoop]
  | cons fi rest ih =>
    cases hw : writeRes fi
    · simp [addFilesLoop, hw, ih]
    · simp [addFilesLoop, hw]

/-- C9: `add_multiple_files` handles each entry independently — a
failing entry adds one error and does not stop the rest, so the
created list is exactly the successful entries' paths in order, the
error count equals the number of failed entries, and the aggregate
`success` flag is `true` exactly when no entry failed. -/
theorem add_multiple_files_independent (writeRes : FileEntry → Option String)
    (files : List FileEntry) :
    (add_multiple_files writeRes files).created_files =
      (files.filter (fun f => (writeRes f).isNone)).map (fun f => f.path) ∧
    (add_multiple_files writeRes files).errors.length =
      (files.filter (fun f => (writeRes f).isSome)).length ∧
    ((add_multiple_files writeRes files).success = true ↔
      ∀ f ∈ files, writeRes f = none) := by
  obtain ⟨h1, h2⟩ := addFilesLoop_spec writeRes files
  refine ⟨h1, h2, ?_⟩
  rw [show (add_multiple_files writeRes files).success
        = (addFilesLoop writeRes files).2.isEmpty from rfl,
    List.isEmpty_iff]
  exact addFilesLoop_errors_nil writeRes files

/-- C10: `detect_project_type` is total: for every filesystem view —
including a listing that raises internally — the result is a non-empty
list, and on any internal error it is exactly `["general"]`; taking
the first element of the result, as `download_github_gitignore`'s
auto-detection does, therefore never hits an empty list. -/
theorem detect_project_type_total (d : DirListing) :
    detect_project_type d ≠ [] ∧
    (detect_project_type d).head?.isSome = true ∧
    ∀ msg, detect_project_type ⟨d.pathExists, Except.error msg⟩ = ["general"] := by
  refine ⟨detect_project_type_ne_nil d, ?_, ?_⟩
  · cases hl : detect_project_type d with
    | nil => exact absurd hl (detect_project_type_ne_nil d)
    | cons a t => simp
  · intro msg
    obtain ⟨pe, l⟩ := d
    cases pe <;> rfl

end GitAutomation
